import Mathlib

/-!
Shallow embedding of `internal/ebpf/bpf/upf_monitor.bpf.c` (5G-DPOP):
an eBPF program that hooks gtp5g kernel-module functions to collect
traffic statistics and detect packet drops.  Machine integers are
modelled as `Nat` with an explicit `% 2^64` where 64-bit overflow
matters; BPF maps become explicit components of a `UpfState` record;
the two ring buffers become bounded channels with an explicit byte
budget; `bpf_ktime_get_ns` becomes a `now` parameter; the invoking
CPU becomes a `cpu` parameter (the per-CPU array is a function of
both the CPU and the key).
-/

namespace UpfMonitor

/-- Modulus for 64-bit unsigned arithmetic (`__u64`). -/
def U64_MOD : Nat := 2 ^ 64

/-- `#define DIRECTION_UPLINK 0`. -/
def DIRECTION_UPLINK : Nat := 0

/-- `#define DIRECTION_DOWNLINK 1`. -/
def DIRECTION_DOWNLINK : Nat := 1

/-- `#define DROP_REASON_KERNEL 3`. -/
def DROP_REASON_KERNEL : Nat := 3

/-- `struct traffic_counter { __u64 packets; __u64 bytes; __u64 timestamp; }`. -/
structure traffic_counter where
  packets : Nat
  bytes : Nat
  timestamp : Nat
deriving Repr, DecidableEq

/-- `struct drop_event` field values (sent to userspace via ring buffer). -/
structure drop_event where
  timestamp : Nat
  teid : Nat
  src_ip : Nat
  dst_ip : Nat
  src_port : Nat
  dst_port : Nat
  pkt_len : Nat
  reason : Nat
  direction : Nat
deriving Repr, DecidableEq

/-- `struct packet_event` field values (detailed tracing). -/
structure packet_event where
  timestamp : Nat
  teid : Nat
  src_ip : Nat
  dst_ip : Nat
  pkt_len : Nat
  direction : Nat
  qfi : Nat
deriving Repr, DecidableEq

/-- `struct session_info` (populated from userspace via PFCP sniffer). -/
structure session_info where
  seid : Nat
  ue_ip : Nat
  upf_ip : Nat
  created_at : Nat
deriving Repr, DecidableEq

/-- The kernel `struct sk_buff`, of which the program only reads the
`__u32 len` field via `BPF_CORE_READ(skb, len)`. -/
structure sk_buff where
  len : Nat
deriving Repr, DecidableEq

/-- Tracepoint context `struct trace_event_raw_kfree_skb`: the program
reads `skbaddr` (a possibly-null packet pointer) and `location`. -/
structure trace_event_raw_kfree_skb where
  skbaddr : Option sk_buff
  location : Nat

/-- A BPF ring buffer with a byte budget: `capacity` is `max_entries`
in bytes, `used` the bytes consumed by reservations so far, and
`records` the committed records in commit order.
`bpf_ringbuf_reserve` succeeds iff `size` more bytes still fit. -/
structure RingBuf (α : Type) where
  capacity : Nat
  used : Nat
  records : List α
deriving Repr, DecidableEq

/-- Whether `bpf_ringbuf_reserve` for `size` bytes succeeds. -/
def RingBuf.canReserve {α : Type} (rb : RingBuf α) (size : Nat) : Bool :=
  rb.used + size ≤ rb.capacity

/-- Commit (`bpf_ringbuf_submit`) a fully populated record of `size` bytes. -/
def RingBuf.submit {α : Type} (rb : RingBuf α) (size : Nat) (e : α) : RingBuf α :=
  { rb with used := rb.used + size, records := rb.records ++ [e] }

/-!
C struct layout (natural alignment, the System V ABI rules used by the
BPF target): each field is placed at its offset rounded up to the field
alignment, and the struct size is the end offset rounded up to the
largest field alignment.  A field is a `(size, alignment)` pair.
-/

/-- Round `off` up to the next multiple of `a`. -/
def alignUp (off a : Nat) : Nat := (off + a - 1) / a * a

/-- Offsets of a field list laid out from `off`, and the end offset. -/
def layoutFields : Nat → List (Nat × Nat) → List Nat × Nat
  | off, [] => ([], off)
  | off, (sz, al) :: rest =>
    let o := alignUp off al
    let res := layoutFields (o + sz) rest
    (o :: res.1, res.2)

/-- `sizeof` a struct with the given `(size, alignment)` fields. -/
def structSize (fields : List (Nat × Nat)) : Nat :=
  alignUp (layoutFields 0 fields).2 (fields.foldl (fun m f => max m f.2) 1)

/-- Fields of `struct drop_event`: `__u64 timestamp; __u32 teid; __u32
src_ip; __u32 dst_ip; __u16 src_port; __u16 dst_port; __u32 pkt_len;
__u8 reason; __u8 direction; __u8 pad[2];`. -/
def drop_event_fields : List (Nat × Nat) :=
  [(8, 8), (4, 4), (4, 4), (4, 4), (2, 2), (2, 2), (4, 4), (1, 1), (1, 1), (2, 1)]

/-- Fields of `struct packet_event`: `__u64 timestamp; __u32 teid;
__u32 src_ip; __u32 dst_ip; __u32 pkt_len; __u8 direction; __u8 qfi;
__u8 pad[2];`. -/
def packet_event_fields : List (Nat × Nat) :=
  [(8, 8), (4, 4), (4, 4), (4, 4), (4, 4), (1, 1), (1, 1), (2, 1)]

/-- `sizeof(struct drop_event)`, the reservation size in `emit_drop_event`. -/
def sizeof_drop_event : Nat := structSize drop_event_fields

/-- `sizeof(struct packet_event)`, the reservation size in `emit_packet_event`. -/
def sizeof_packet_event : Nat := structSize packet_event_fields

/-- Byte offset of each `drop_event` field. -/
def drop_event_offsets : List Nat := (layoutFields 0 drop_event_fields).1

/-- Byte offset of each `packet_event` field. -/
def packet_event_offsets : List Nat := (layoutFields 0 packet_event_fields).1

/-- `max_entries` of the `teid_stats` hash map. -/
def TEID_STATS_MAX : Nat := 4096

/-- Lookup in an association list modelling a BPF hash map. -/
def assocLookup {α : Type} (m : List (Nat × α)) (k : Nat) : Option α :=
  match m with
  | [] => none
  | (k', v) :: rest => if k' = k then some v else assocLookup rest k

/-- Replace the value bound to `k` (no-op when `k` is absent). -/
def assocUpdate {α : Type} (m : List (Nat × α)) (k : Nat) (v : α) : List (Nat × α) :=
  match m with
  | [] => []
  | (k', v') :: rest => if k' = k then (k', v) :: rest else (k', v') :: assocUpdate rest k v

/-- All BPF maps of `upf_monitor.bpf.c`.  `traffic_stats` is a
`BPF_MAP_TYPE_PERCPU_ARRAY` with `max_entries 2`, modelled as a total
function of the CPU and the key (lookups for keys `≥ 2` fail);
`teid_stats` and `teid_session_map` are hash maps (`max_entries 4096`);
`agent_config` is the 4-entry config array, modelled as the lookup
function userspace-controlled contents induce; the two ring buffers
carry 256 KiB and 512 KiB. -/
structure UpfState where
  traffic_stats : Nat → Nat → traffic_counter
  teid_stats : List (Nat × traffic_counter)
  teid_session_map : List (Nat × session_info)
  agent_config : Nat → Option Nat
  drop_events : RingBuf drop_event
  packet_events : RingBuf packet_event

/-- `bpf_map_lookup_elem(&traffic_stats, &key)` on the invoking CPU:
an array-map lookup succeeds exactly for keys below `max_entries` (2). -/
def traffic_stats_lookup (s : UpfState) (cpu key : Nat) : Option traffic_counter :=
  if key < 2 then some (s.traffic_stats cpu key) else none

/-- `update_traffic_counter(direction, len)` executed on `cpu` at time
`now`: on lookup success, increment `packets`, add `len` to `bytes`
(64-bit wrapping) and refresh `timestamp`, all on the invoking CPU's
private copy. -/
def update_traffic_counter (cpu direction len now : Nat) (s : UpfState) : UpfState :=
  match traffic_stats_lookup s cpu direction with
  | none => s
  | some counter =>
    { s with traffic_stats := fun c k =>
        if c = cpu ∧ k = direction then
          { packets := (counter.packets + 1) % U64_MOD
            bytes := (counter.bytes + len) % U64_MOD
            timestamp := now }
        else s.traffic_stats c k }

/-- `update_teid_counter(teid, len)` at time `now`: on a hit, increment
in place; on a miss, insert `{packets := 1, bytes := len, timestamp :=
now}` (the insert fails silently when the hash map is at capacity). -/
def update_teid_counter (teid len now : Nat) (s : UpfState) : UpfState :=
  match assocLookup s.teid_stats teid with
  | some counter =>
    let c : traffic_counter :=
      { packets := (counter.packets + 1) % U64_MOD
        bytes := (counter.bytes + len) % U64_MOD
        timestamp := now }
    { s with teid_stats := assocUpdate s.teid_stats teid c }
  | none =>
    if s.teid_stats.length < TEID_STATS_MAX then
      { s with teid_stats :=
          s.teid_stats ++ [(teid, { packets := 1, bytes := len % U64_MOD, timestamp := now })] }
    else s

/-- `emit_drop_event(teid, src_ip, dst_ip, pkt_len, reason, direction)`
at time `now`: reserve a `drop_event`-sized record on the drop ring
buffer; on reservation failure return with no effect; otherwise
populate every field (ports are hard-coded to 0) and submit. -/
def emit_drop_event (teid src_ip dst_ip pkt_len reason direction now : Nat)
    (s : UpfState) : UpfState :=
  if s.drop_events.canReserve sizeof_drop_event then
    let e : drop_event :=
      { timestamp := now, teid := teid, src_ip := src_ip, dst_ip := dst_ip
        src_port := 0, dst_port := 0, pkt_len := pkt_len
        reason := reason, direction := direction }
    { s with drop_events := s.drop_events.submit sizeof_drop_event e }
  else s

/-- `emit_packet_event(teid, src_ip, dst_ip, pkt_len, direction, qfi)`
at time `now`: first consult `agent_config[0]` (detailed tracing); if
absent or zero return with no effect; otherwise reserve a
`packet_event`-sized record, and on reservation success populate and
submit it. -/
def emit_packet_event (teid src_ip dst_ip pkt_len direction qfi now : Nat)
    (s : UpfState) : UpfState :=
  match s.agent_config 0 with
  | none => s
  | some enabled =>
    if enabled = 0 then s
    else if s.packet_events.canReserve sizeof_packet_event then
      let e : packet_event :=
        { timestamp := now, teid := teid, src_ip := src_ip, dst_ip := dst_ip
          pkt_len := pkt_len, direction := direction, qfi := qfi }
      { s with packet_events := s.packet_events.submit sizeof_packet_event e }
    else s

/-- `kprobe/gtp5g_encap_recv` (uplink entry hook) executed on `cpu` at
time `now`: if `skb` is null return 0 immediately; otherwise read
`skb->len` and update the uplink direction counter; return 0. -/
def kprobe_gtp5g_encap_recv (cpu _sk : Nat) (skb : Option sk_buff) (now : Nat)
    (s : UpfState) : UpfState × Int :=
  match skb with
  | none => (s, 0)
  | some skb => (update_traffic_counter cpu DIRECTION_UPLINK skb.len now s, 0)

/-- `kprobe/gtp5g_dev_xmit` (downlink exit hook) executed on `cpu` at
time `now`: if `skb` is null return 0 immediately; otherwise read
`skb->len` and update the downlink direction counter; return 0. -/
def kprobe_gtp5g_dev_xmit (cpu : Nat) (skb : Option sk_buff) (_dev now : Nat)
    (s : UpfState) : UpfState × Int :=
  match skb with
  | none => (s, 0)
  | some skb => (update_traffic_counter cpu DIRECTION_DOWNLINK skb.len now s, 0)

/-- `tracepoint/skb/kfree_skb` (drop-detection hook) at time `now`:
consult `agent_config[1]`; if absent or zero return 0.  Then if the
freed `skb` is null return 0; read `skb->len`; if below the 20-byte
noise floor return 0; otherwise emit a drop event with
`reason = DROP_REASON_KERNEL`, direction 0 and zeroed TEID/addresses,
and return 0. -/
def tracepoint_kfree_skb (ctx : trace_event_raw_kfree_skb) (now : Nat)
    (s : UpfState) : UpfState × Int :=
  match s.agent_config 1 with
  | none => (s, 0)
  | some enabled =>
    if enabled = 0 then (s, 0)
    else
      match ctx.skbaddr with
      | none => (s, 0)
      | some skb =>
        if skb.len < 20 then (s, 0)
        else (emit_drop_event 0 0 0 skb.len DROP_REASON_KERNEL 0 now s, 0)

/-- A freshly loaded state: zeroed per-CPU counters, empty hash maps,
empty config (every lookup misses), empty ring buffers at their
declared capacities (256 KiB and 512 KiB). -/
def s0 : UpfState :=
  { traffic_stats := fun _ _ => { packets := 0, bytes := 0, timestamp := 0 }
    teid_stats := []
    teid_session_map := []
    agent_config := fun _ => none
    drop_events := { capacity := 256 * 1024, used := 0, records := [] }
    packet_events := { capacity := 512 * 1024, used := 0, records := [] } }

/-- `s0` with drop tracing enabled (`agent_config[1] = 1`). -/
def s1 : UpfState :=
  { s0 with agent_config := fun k => if k = 1 then some 1 else none }

/-- A state whose two ring buffers are saturated; the drop channel
already holds one committed record. -/
def s_full : UpfState :=
  { s0 with
    drop_events :=
      { capacity := 256 * 1024, used := 256 * 1024
        records := [{ timestamp := 1, teid := 2, src_ip := 3, dst_ip := 4
                      src_port := 0, dst_port := 0, pkt_len := 50
                      reason := 3, direction := 0 }] }
    packet_events := { capacity := 512 * 1024, used := 512 * 1024, records := [] } }

/-! Helper lemmas about the association-list hash-map model. -/

/-- Looking up `k` after appending `(k, v)` to a map that misses `k`. -/
theorem assocLookup_append_of_none {α : Type} (m : List (Nat × α)) (k : Nat) (v : α)
    (h : assocLookup m k = none) : assocLookup (m ++ [(k, v)]) k = some v := by
  induction m with
  | nil => simp [assocLookup]
  | cons p rest ih =>
    obtain ⟨k', w⟩ := p
    by_cases hk : k' = k
    · simp [assocLookup, hk] at h
    · simp [assocLookup, hk] at h ⊢
      exact ih h

/-- Looking up `k` after overwriting its binding with `v`. -/
theorem assocLookup_assocUpdate {α : Type} (m : List (Nat × α)) (k : Nat) (v w : α)
    (h : assocLookup m k = some w) : assocLookup (assocUpdate m k v) k = some v := by
  induction m with
  | nil => simp [assocLookup] at h
  | cons p rest ih =>
    obtain ⟨k', w'⟩ := p
    by_cases hk : k' = k
    · simp [assocLookup, assocUpdate, hk]
    · simp [assocLookup, assocUpdate, hk] at h ⊢
      exact ih h

/-! Helper lemmas: which state components each operation can touch. -/

/-- `update_traffic_counter` only touches `traffic_stats`. -/
theorem update_traffic_counter_only_traffic (cpu d len now : Nat) (s : UpfState) :
    (update_traffic_counter cpu d len now s).teid_stats = s.teid_stats
    ∧ (update_traffic_counter cpu d len now s).packet_events = s.packet_events := by
  unfold update_traffic_counter
  split <;> exact ⟨rfl, rfl⟩

/-- `emit_drop_event` only touches `drop_events`. -/
theorem emit_drop_event_only_drop (teid sip dip plen reason dir now : Nat) (s : UpfState) :
    (emit_drop_event teid sip dip plen reason dir now s).teid_stats = s.teid_stats
    ∧ (emit_drop_event teid sip dip plen reason dir now s).packet_events = s.packet_events := by
  unfold emit_drop_event
  split <;> exact ⟨rfl, rfl⟩

/-- C1: an uplink entry hook invocation with a non-null packet of
length `L` increases the uplink (direction 0) per-CPU counter's
`packets` by exactly 1 and its `bytes` by exactly `L` on the invoking
CPU's copy; symmetrically the downlink exit hook increases the
downlink (direction 1) per-CPU counter.  The hypotheses rule out
64-bit wrap-around of the counters. -/
theorem C1_per_cpu_direction_counters (cpu sk dev now : Nat) (skb : sk_buff) (s : UpfState)
    (h1 : (s.traffic_stats cpu 0).packets + 1 < U64_MOD)
    (h2 : (s.traffic_stats cpu 0).bytes + skb.len < U64_MOD)
    (h3 : (s.traffic_stats cpu 1).packets + 1 < U64_MOD)
    (h4 : (s.traffic_stats cpu 1).bytes + skb.len < U64_MOD) :
    ((kprobe_gtp5g_encap_recv cpu sk (some skb) now s).1.traffic_stats cpu 0).packets
        = (s.traffic_stats cpu 0).packets + 1
    ∧ ((kprobe_gtp5g_encap_recv cpu sk (some skb) now s).1.traffic_stats cpu 0).bytes
        = (s.traffic_stats cpu 0).bytes + skb.len
    ∧ ((kprobe_gtp5g_dev_xmit cpu (some skb) dev now s).1.traffic_stats cpu 1).packets
        = (s.traffic_stats cpu 1).packets + 1
    ∧ ((kprobe_gtp5g_dev_xmit cpu (some skb) dev now s).1.traffic_stats cpu 1).bytes
        = (s.traffic_stats cpu 1).bytes + skb.len := by
  simp only [kprobe_gtp5g_encap_recv, kprobe_gtp5g_dev_xmit, update_traffic_counter,
    traffic_stats_lookup, DIRECTION_UPLINK, DIRECTION_DOWNLINK]
  norm_num
  exact ⟨Nat.mod_eq_of_lt h1, Nat.mod_eq_of_lt h2, Nat.mod_eq_of_lt h3, Nat.mod_eq_of_lt h4⟩

/-- Witness for C1 at a concrete fresh state and a 100-byte packet. -/
theorem C1_witness :
    ((kprobe_gtp5g_encap_recv 0 0 (some ⟨100⟩) 5 s0).1.traffic_stats 0 0).packets
        = (s0.traffic_stats 0 0).packets + 1
    ∧ ((kprobe_gtp5g_encap_recv 0 0 (some ⟨100⟩) 5 s0).1.traffic_stats 0 0).bytes
        = (s0.traffic_stats 0 0).bytes + 100
    ∧ ((kprobe_gtp5g_dev_xmit 0 (some ⟨100⟩) 0 5 s0).1.traffic_stats 0 1).packets
        = (s0.traffic_stats 0 1).packets + 1
    ∧ ((kprobe_gtp5g_dev_xmit 0 (some ⟨100⟩) 0 5 s0).1.traffic_stats 0 1).bytes
        = (s0.traffic_stats 0 1).bytes + 100 :=
  C1_per_cpu_direction_counters 0 0 0 5 ⟨100⟩ s0
    (by decide) (by decide) (by decide) (by decide)

/-- C2: with drop tracing enabled (config key 1 bound to a non-zero
value) and a non-null freed packet of length `L`: if `L < 20` no drop
event is published (the state is unchanged); if `20 ≤ L` and the drop
channel can accept a record, exactly one drop event is appended, with
`reason = DROP_REASON_KERNEL`, direction 0, `teid = 0` and both
addresses 0. -/
theorem C2_drop_hook_threshold (loc now L v : Nat) (s : UpfState)
    (hen : s.agent_config 1 = some v) (hv : v ≠ 0) :
    (L < 20 → (tracepoint_kfree_skb ⟨some ⟨L⟩, loc⟩ now s).1 = s)
    ∧ (20 ≤ L → s.drop_events.canReserve sizeof_drop_event = true →
        (tracepoint_kfree_skb ⟨some ⟨L⟩, loc⟩ now s).1.drop_events.records
          = s.drop_events.records
              ++ [{ timestamp := now, teid := 0, src_ip := 0, dst_ip := 0
                    src_port := 0, dst_port := 0, pkt_len := L
                    reason := DROP_REASON_KERNEL, direction := 0 }]) := by
  constructor
  · intro hL
    simp [tracepoint_kfree_skb, hen, hv, hL]
  · intro hL hres
    have hnl : ¬ L < 20 := Nat.not_lt.mpr hL
    simp [tracepoint_kfree_skb, hen, hv, hnl, emit_drop_event, hres, RingBuf.submit]

/-- Witness for C2 at lengths 19 and 20 under an enabled config. -/
theorem C2_witness :
    (tracepoint_kfree_skb ⟨some ⟨19⟩, 0⟩ 7 s1).1 = s1
    ∧ (tracepoint_kfree_skb ⟨some ⟨20⟩, 0⟩ 7 s1).1.drop_events.records
        = s1.drop_events.records
            ++ [{ timestamp := 7, teid := 0, src_ip := 0, dst_ip := 0
                  src_port := 0, dst_port := 0, pkt_len := 20
                  reason := DROP_REASON_KERNEL, direction := 0 }] :=
  ⟨(C2_drop_hook_threshold 0 7 19 1 s1 rfl (by decide)).1 (by decide),
   (C2_drop_hook_threshold 0 7 20 1 s1 rfl (by decide)).2 (by decide) (by decide)⟩

/-- C3: with drop tracing disabled (config key 1 absent or bound to 0)
the drop-detection hook publishes nothing — it returns 0 with the
state unchanged, for any freed packet (null handles included). -/
theorem C3_drop_tracing_disabled (ctx : trace_event_raw_kfree_skb) (now : Nat) (s : UpfState)
    (h : s.agent_config 1 = none ∨ s.agent_config 1 = some 0) :
    (tracepoint_kfree_skb ctx now s).1 = s ∧ (tracepoint_kfree_skb ctx now s).2 = 0 := by
  rcases h with h | h <;> simp [tracepoint_kfree_skb, h]

/-- Witness for C3 under the empty config table and a 100-byte packet. -/
theorem C3_witness :
    (tracepoint_kfree_skb ⟨some ⟨100⟩, 3⟩ 7 s0).1 = s0
    ∧ (tracepoint_kfree_skb ⟨some ⟨100⟩, 3⟩ 7 s0).2 = 0 :=
  C3_drop_tracing_disabled ⟨some ⟨100⟩, 3⟩ 7 s0 (Or.inl rfl)

/-- C4: updating the TEID counter for an unseen TEID with length `L`
creates an entry `{packets := 1, bytes := L}`; a second update with
the same TEID and length `L2` increments it in place to
`{packets := 2, bytes := L + L2}`.  Hypotheses: the TEID misses, the
hash map is below its 4096-entry capacity, and the byte counter does
not wrap in 64 bits. -/
theorem C4_teid_counter_create_then_increment (teid L L2 now1 now2 : Nat) (s : UpfState)
    (habs : assocLookup s.teid_stats teid = none)
    (hcap : s.teid_stats.length < TEID_STATS_MAX)
    (hL : L < U64_MOD) (hsum : L + L2 < U64_MOD) :
    assocLookup (update_teid_counter teid L now1 s).teid_stats teid
        = some { packets := 1, bytes := L, timestamp := now1 }
    ∧ assocLookup
        (update_teid_counter teid L2 now2 (update_teid_counter teid L now1 s)).teid_stats teid
        = some { packets := 2, bytes := L + L2, timestamp := now2 } := by
  have hmod : L % U64_MOD = L := Nat.mod_eq_of_lt hL
  have h1 : (update_teid_counter teid L now1 s).teid_stats
      = s.teid_stats ++ [(teid, { packets := 1, bytes := L, timestamp := now1 })] := by
    simp [update_teid_counter, habs, hcap, hmod]
  have hfind : assocLookup (update_teid_counter teid L now1 s).teid_stats teid
      = some { packets := 1, bytes := L, timestamp := now1 } := by
    rw [h1]
    exact assocLookup_append_of_none s.teid_stats teid _ habs
  refine ⟨hfind, ?_⟩
  have h2two : (1 + 1) % U64_MOD = 2 := by decide
  generalize update_teid_counter teid L now1 s = t at hfind ⊢
  have h2 : (update_teid_counter teid L2 now2 t).teid_stats
      = assocUpdate t.teid_stats teid { packets := 2, bytes := L + L2, timestamp := now2 } := by
    simp [update_teid_counter, hfind, Nat.mod_eq_of_lt hsum, h2two]
  rw [h2]
  exact assocLookup_assocUpdate _ teid _ _ hfind

/-- Witness for C4: TEID 7 first seen with length 10, then length 5. -/
theorem C4_witness :
    assocLookup (update_teid_counter 7 10 1 s0).teid_stats 7
        = some { packets := 1, bytes := 10, timestamp := 1 }
    ∧ assocLookup (update_teid_counter 7 5 2 (update_teid_counter 7 10 1 s0)).teid_stats 7
        = some { packets := 2, bytes := 10 + 5, timestamp := 2 } :=
  C4_teid_counter_create_then_increment 7 10 5 1 2 s0 rfl (by decide) (by decide) (by decide)

/-- C5: an absent config entry and a zero-valued entry are both
treated as "feature disabled": with config key 0 absent or 0 the
packet-event emitter changes nothing (regardless of its arguments),
and with config key 1 absent or 0 the drop hook changes nothing. -/
theorem C5_config_defaults_to_disabled (teid sip dip plen dir qfi now : Nat)
    (ctx : trace_event_raw_kfree_skb) (s : UpfState)
    (h0 : s.agent_config 0 = none ∨ s.agent_config 0 = some 0)
    (h1 : s.agent_config 1 = none ∨ s.agent_config 1 = some 0) :
    emit_packet_event teid sip dip plen dir qfi now s = s
    ∧ (tracepoint_kfree_skb ctx now s).1 = s := by
  constructor
  · rcases h0 with h | h <;> simp [emit_packet_event, h]
  · rcases h1 with h | h <;> simp [tracepoint_kfree_skb, h]

/-- Witness for C5 under the empty config table `s0`. -/
theorem C5_witness :
    emit_packet_event 9 1 2 64 0 5 7 s0 = s0
    ∧ (tracepoint_kfree_skb ⟨some ⟨64⟩, 0⟩ 7 s0).1 = s0 :=
  C5_config_defaults_to_disabled 9 1 2 64 0 5 7 ⟨some ⟨64⟩, 0⟩ s0 (Or.inl rfl) (Or.inl rfl)

/-- C6: when reservation on a channel fails, the publish is abandoned
with no retry and no state change — in particular every
already-committed record of the channel is left intact.  This holds
for the drop-event emitter and (for any config) the packet-event
emitter. -/
theorem C6_full_channel_abandons_publish (teid sip dip plen reason dir qfi now : Nat)
    (s : UpfState)
    (hd : s.drop_events.canReserve sizeof_drop_event = false)
    (hp : s.packet_events.canReserve sizeof_packet_event = false) :
    emit_drop_event teid sip dip plen reason dir now s = s
    ∧ emit_packet_event teid sip dip plen dir qfi now s = s := by
  constructor
  · simp [emit_drop_event, hd]
  · rcases h : s.agent_config 0 with _ | v
    · simp [emit_packet_event, h]
    · by_cases hv : v = 0
      · simp [emit_packet_event, h, hv]
      · simp [emit_packet_event, h, hv, hp]

/-- Witness for C6 on saturated channels, the drop channel holding one
committed record which therefore stays intact. -/
theorem C6_witness :
    emit_drop_event 9 1 2 64 3 0 7 s_full = s_full
    ∧ emit_packet_event 9 1 2 64 0 5 7 s_full = s_full :=
  C6_full_channel_abandons_publish 9 1 2 64 3 0 5 7 s_full (by decide) (by decide)

/-- C7: every hook returns 0 on every execution path, and a null
packet handle makes each hook return with the state unchanged. -/
theorem C7_hooks_return_zero (cpu sk dev now : Nat) (skb : Option sk_buff)
    (ctx : trace_event_raw_kfree_skb) (s : UpfState) :
    (kprobe_gtp5g_encap_recv cpu sk skb now s).2 = 0
    ∧ (kprobe_gtp5g_dev_xmit cpu skb dev now s).2 = 0
    ∧ (tracepoint_kfree_skb ctx now s).2 = 0
    ∧ (kprobe_gtp5g_encap_recv cpu sk none now s).1 = s
    ∧ (kprobe_gtp5g_dev_xmit cpu none dev now s).1 = s
    ∧ (ctx.skbaddr = none → (tracepoint_kfree_skb ctx now s).1 = s) := by
  refine ⟨?_, ?_, ?_, rfl, rfl, ?_⟩
  · cases skb <;> rfl
  · cases skb <;> rfl
  · unfold tracepoint_kfree_skb
    split
    · rfl
    · split
      · rfl
      · split
        · rfl
        · split <;> rfl
  · intro hnull
    unfold tracepoint_kfree_skb
    split
    · rfl
    · split
      · rfl
      · rw [hnull]

/-- Witness for C7 at concrete null-handle invocations. -/
theorem C7_witness :
    (kprobe_gtp5g_encap_recv 0 0 none 5 s0).2 = 0
    ∧ (kprobe_gtp5g_dev_xmit 0 none 0 5 s0).2 = 0
    ∧ (tracepoint_kfree_skb ⟨none, 0⟩ 5 s0).2 = 0
    ∧ (kprobe_gtp5g_encap_recv 0 0 none 5 s0).1 = s0
    ∧ (kprobe_gtp5g_dev_xmit 0 none 0 5 s0).1 = s0
    ∧ (tracepoint_kfree_skb ⟨none, 0⟩ 5 s0).1 = s0 := by
  obtain ⟨a, b, c, d, e, f⟩ := C7_hooks_return_zero 0 0 0 5 none ⟨none, 0⟩ s0
  exact ⟨a, b, c, d, e, f rfl⟩

/-- C8 counterexample: the claimed record sizes (40 bytes for
`drop_event`, 28 for `packet_event`) are both wrong.  Under the C
layout rules the `drop_event` fields end at offset 32 (already
8-aligned), and the `packet_event` fields end at offset 28, which
trailing padding rounds up to 32. -/
theorem C8_counterexample : ¬ (sizeof_drop_event = 40 ∧ sizeof_packet_event = 28) := by
  decide

/-- C8 amended: `drop_event` occupies exactly 32 bytes and
`packet_event` exactly 32 bytes, with each field at the fixed offset
the listed widths imply, so the consumer can decode by fixed offset. -/
theorem C8_record_layout :
    sizeof_drop_event = 32
    ∧ sizeof_packet_event = 32
    ∧ drop_event_offsets = [0, 8, 12, 16, 20, 22, 24, 28, 29, 30]
    ∧ packet_event_offsets = [0, 8, 12, 16, 20, 24, 25, 26] := by
  decide

/-- C9: no hook invocation touches the TEID-counter table or the
packet-event channel — `update_teid_counter` and `emit_packet_event`
are never called from any of the three hooks, so both components are
passed through unchanged for every input and configuration. -/
theorem C9_teid_and_packet_channel_untouched (cpu sk dev now : Nat) (skb : Option sk_buff)
    (ctx : trace_event_raw_kfree_skb) (s : UpfState) :
    (kprobe_gtp5g_encap_recv cpu sk skb now s).1.teid_stats = s.teid_stats
    ∧ (kprobe_gtp5g_encap_recv cpu sk skb now s).1.packet_events = s.packet_events
    ∧ (kprobe_gtp5g_dev_xmit cpu skb dev now s).1.teid_stats = s.teid_stats
    ∧ (kprobe_gtp5g_dev_xmit cpu skb dev now s).1.packet_events = s.packet_events
    ∧ (tracepoint_kfree_skb ctx now s).1.teid_stats = s.teid_stats
    ∧ (tracepoint_kfree_skb ctx now s).1.packet_events = s.packet_events := by
  have hrecv : (kprobe_gtp5g_encap_recv cpu sk skb now s).1.teid_stats = s.teid_stats
      ∧ (kprobe_gtp5g_encap_recv cpu sk skb now s).1.packet_events = s.packet_events := by
    cases skb with
    | none => exact ⟨rfl, rfl⟩
    | some skb => exact update_traffic_counter_only_traffic cpu DIRECTION_UPLINK skb.len now s
  have hxmit : (kprobe_gtp5g_dev_xmit cpu skb dev now s).1.teid_stats = s.teid_stats
      ∧ (kprobe_gtp5g_dev_xmit cpu skb dev now s).1.packet_events = s.packet_events := by
    cases skb with
    | none => exact ⟨rfl, rfl⟩
    | some skb => exact update_traffic_counter_only_traffic cpu DIRECTION_DOWNLINK skb.len now s
  have hdrop : (tracepoint_kfree_skb ctx now s).1.teid_stats = s.teid_stats
      ∧ (tracepoint_kfree_skb ctx now s).1.packet_events = s.packet_events := by
    unfold tracepoint_kfree_skb
    split
    · exact ⟨rfl, rfl⟩
    · split
      · exact ⟨rfl, rfl⟩
      · split
        · exact ⟨rfl, rfl⟩
        · split
          · exact ⟨rfl, rfl⟩
          · exact emit_drop_event_only_drop _ _ _ _ _ _ _ s
  exact ⟨hrecv.1, hrecv.2, hxmit.1, hxmit.2, hdrop.1, hdrop.2⟩

/-- C10: any record the drop-event emitter publishes carries
`src_port = 0` and `dst_port = 0`: either the channel is left exactly
as it was, or exactly one record with both ports zero is appended. -/
theorem C10_drop_event_ports_always_zero (teid sip dip plen reason dir now : Nat)
    (s : UpfState) :
    (emit_drop_event teid sip dip plen reason dir now s).drop_events.records
        = s.drop_events.records
    ∨ ∃ e : drop_event,
        (emit_drop_event teid sip dip plen reason dir now s).drop_events.records
            = s.drop_events.records ++ [e]
          ∧ e.src_port = 0 ∧ e.dst_port = 0 := by
  unfold emit_drop_event
  split
  · exact Or.inr ⟨_, rfl, rfl, rfl⟩
  · exact Or.inl rfl

end UpfMonitor
